import Mathlib

/- Verification of the Excel_Sheet_Analyser WebSocket relay server.
   The repository holds several near-identical revisions of one Node.js file;
   each revision is embedded separately where the revisions disagree:
   onMessage_part002, onMessage_part005, onMessage_serverjs, onMessage_part001
   correspond to the message handlers of src/unnamed/part_002 (first revision
   in the file), src/unnamed/part_005, src/ws-server/server.js (first
   revision), and src/unnamed/part_001.
   JSON.parse is an external library function and is abstracted as the
   parsed field of Msg; JSON.stringify is abstracted by letting send events
   carry the Json value that is serialized. -/

/-- JSON values, as produced by JSON.parse of the incoming text. -/
inductive Json where
  | null : Json
  | bool : Bool → Json
  | num  : Int → Json
  | str  : String → Json
  | arr  : List Json → Json
  | obj  : List (String × Json) → Json

/-- Property lookup on an object field list (JS property access). -/
def getKey (fs : List (String × Json)) (k : String) : Option Json :=
  (fs.find? (fun p => p.1 == k)).map (fun p => p.2)

/-- JS object-literal override: spread the fields, then write key k.
    An existing key keeps its position and gets the new value; a fresh key
    is appended at the end, as in a JS object literal. -/
def setKey (fs : List (String × Json)) (k : String) (v : Json) : List (String × Json) :=
  if fs.any (fun p => p.1 == k) then
    fs.map (fun p => if p.1 == k then (k, v) else p)
  else fs ++ [(k, v)]

/-- Spread of a value into a JS object literal.  Objects contribute their
    fields, arrays and strings contribute index-keyed entries, and the
    primitive values contribute nothing. -/
def objSpread : Json → List (String × Json)
  | .obj fs => fs
  | .arr l  => l.enum.map (fun p => (toString p.1, p.2))
  | .str s  => s.toList.enum.map (fun p => (toString p.1, Json.str (String.mk [p.2])))
  | _ => []

/-- The _meta property of a value; undefined (none) on non-objects. -/
def jsGetMeta : Json → Option Json
  | .obj fs => getKey fs "_meta"
  | _ => none

/-- Spread of a possibly-undefined value: spreading undefined gives nothing. -/
def spreadOpt : Option Json → List (String × Json)
  | some m => objSpread m
  | none   => []

/-- Property lookup through a Json value; undefined on non-objects. -/
def jsGet (j : Json) (k : String) : Option Json :=
  match j with
  | .obj fs => getKey fs k
  | _ => none

/-- The keys of an object value, in order. -/
def objKeys : Json → List String
  | .obj fs => fs.map Prod.fst
  | _ => []

/-- JS typeof test used by the validation guard: typeof x is the string
    object exactly for null, arrays and objects. -/
def jsTypeofIsObject : Json → Bool
  | .null  => true
  | .arr _ => true
  | .obj _ => true
  | _ => false

/-- Null test for the second half of the validation guard. -/
def jsIsNull : Json → Bool
  | .null => true
  | _ => false

/-- The validation guard of the message handlers: the parsed value passes
    when typeof is object and the value is not null. -/
def validStructure (j : Json) : Bool := jsTypeofIsObject j && !(jsIsNull j)

/-- JS truthiness, used by the greeting guard if latestJson. -/
def jsTruthy : Json → Bool
  | .null   => false
  | .bool b => b
  | .num n  => n != 0
  | .str s  => s != ""
  | .arr _  => true
  | .obj _  => true

/-- One WebSocket client connection.  readyState true models the OPEN
    state; canSend abstracts whether a call to client.send succeeds or
    throws (the external failure the broadcast try/catch blocks handle). -/
structure Client where
  cid : Nat
  readyState : Bool
  canSend : Bool
deriving DecidableEq

/-- Server state: the latestJson slot (none models the initial null) and
    the wss.clients registry. -/
structure ServerState where
  latestJson : Option Json
  clients : List Client

/-- Observable outputs of one handler invocation.  sent carries the Json
    value whose serialization client.send transmits; sentRaw is the raw
    string relay of part_001; errorSent is the Invalid-message-format
    reply to the sender; terminated records a client.terminate call. -/
inductive OutEvent where
  | sent : Nat → Json → OutEvent
  | sentRaw : Nat → String → OutEvent
  | errorSent : Nat → OutEvent
  | terminated : Nat → OutEvent

/-- An incoming message: its text, and the result of the external
    JSON.parse on that text (none when parsing throws). -/
structure Msg where
  raw : String
  parsed : Option Json

/-- message.length as checked by the size guards. -/
def msgLen (m : Msg) : Nat := m.raw.length

/-- Size limit constant of part_002. -/
def MAX_PAYLOAD_SIZE : Nat := 100 * 1024

/-- Ping interval constant of part_002. -/
def PING_INTERVAL : Nat := 30000

/-- part_002 cache update: spread jsonData, then write _meta to the spread
    of the old jsonData._meta with receivedAt overwritten to the current
    timestamp. -/
def storeMerged_part002 (j : Json) (now : String) : Json :=
  Json.obj (setKey (objSpread j) "_meta"
    (Json.obj (setKey (spreadOpt (jsGetMeta j)) "receivedAt" (Json.str now))))

/-- part_005 cache update: spread jsonData, then write _meta to a fresh
    object holding only receivedAt. -/
def storeMerged_part005 (j : Json) (now : String) : Json :=
  Json.obj (setKey (objSpread j) "_meta" (Json.obj [("receivedAt", Json.str now)]))

/-- part_002 broadcast: forEach over wss.clients (the sender included);
    each OPEN client is sent the value inside a try/catch whose catch
    terminates the client.  Returns the updated registry and the events. -/
def broadcast_part002 (clients : List Client) (v : Json) : List Client × List OutEvent :=
  (clients.map (fun c =>
     if c.readyState && !c.canSend then { c with readyState := false } else c),
   clients.filterMap (fun c =>
     if c.readyState then
       (if c.canSend then some (OutEvent.sent c.cid v) else some (OutEvent.terminated c.cid))
     else none))

/-- part_005 broadcast: forEach skipping the sender; each OPEN client is
    sent the value inside a try/catch whose catch only logs, so a failed
    send changes nothing and produces no event. -/
def broadcast_part005 (clients : List Client) (sender : Client) (v : Json) : List OutEvent :=
  clients.filterMap (fun c =>
    if c.cid != sender.cid && c.readyState && c.canSend then
      some (OutEvent.sent c.cid v)
    else none)

/-- Broadcast loop without a per-send try/catch (server.js and part_001):
    a throwing send aborts the forEach and the exception escapes to the
    surrounding handler; the Bool records whether that happened. -/
def sendToOthersUntilThrow (clients : List Client) (sender : Client)
    (mk : Nat → OutEvent) : List OutEvent × Bool :=
  match clients with
  | [] => ([], false)
  | c :: rest =>
    if c.cid != sender.cid && c.readyState then
      (if c.canSend then
         let r := sendToOthersUntilThrow rest sender mk
         (mk c.cid :: r.1, r.2)
       else ([], true))
    else sendToOthersUntilThrow rest sender mk

/-- part_002 error path: state untouched; the error reply goes to the
    sender only when its readyState is still OPEN. -/
def errorReply_part002 (st : ServerState) (sender : Client) : ServerState × List OutEvent :=
  (st, if sender.readyState then [OutEvent.errorSent sender.cid] else [])

/-- The message handler of src/unnamed/part_002 (first revision): size
    guard, JSON.parse, structure guard, cache update with merged _meta,
    then broadcast to every OPEN client, the sender included. -/
def onMessage_part002 (st : ServerState) (sender : Client) (m : Msg) (now : String) :
    ServerState × List OutEvent :=
  if msgLen m > MAX_PAYLOAD_SIZE then errorReply_part002 st sender
  else
    match m.parsed with
    | none => errorReply_part002 st sender
    | some j =>
      if validStructure j then
        let stored := storeMerged_part002 j now
        let r := broadcast_part002 st.clients stored
        ({ latestJson := some stored, clients := r.1 }, r.2)
      else errorReply_part002 st sender

/-- The message handler of src/unnamed/part_005: size guard at 100000,
    JSON.parse, structure guard, cache update with a fresh _meta, then
    broadcast to the other OPEN clients; the catch sends the error reply
    unconditionally. -/
def onMessage_part005 (st : ServerState) (sender : Client) (m : Msg) (now : String) :
    ServerState × List OutEvent :=
  if msgLen m > 100000 then (st, [OutEvent.errorSent sender.cid])
  else
    match m.parsed with
    | none => (st, [OutEvent.errorSent sender.cid])
    | some j =>
      if validStructure j then
        let stored := storeMerged_part005 j now
        ({ st with latestJson := some stored }, broadcast_part005 st.clients sender stored)
      else (st, [OutEvent.errorSent sender.cid])

/-- The message handler of src/ws-server/server.js (first revision): no
    size guard, JSON.parse, structure guard, cache update with the parsed
    value unchanged, then broadcast to the other OPEN clients with no
    per-send try/catch; a throwing send lands in the outer catch, which
    sends the error reply to the sender. -/
def onMessage_serverjs (st : ServerState) (sender : Client) (m : Msg) :
    ServerState × List OutEvent :=
  match m.parsed with
  | none => (st, [OutEvent.errorSent sender.cid])
  | some j =>
    if validStructure j then
      let r := sendToOthersUntilThrow st.clients sender (fun i => OutEvent.sent i j)
      ({ st with latestJson := some j },
       r.1 ++ (if r.2 then [OutEvent.errorSent sender.cid] else []))
    else (st, [OutEvent.errorSent sender.cid])

/-- The message handler of src/unnamed/part_001: the try wraps only
    JSON.parse; a parse failure stores an object wrapping the raw text,
    any parsed value is stored as-is, and the raw text is relayed to the
    other OPEN clients; no error reply exists.  A throwing send would
    escape the handler; its flag is not observable as a message. -/
def onMessage_part001 (st : ServerState) (sender : Client) (m : Msg) :
    ServerState × List OutEvent :=
  let newCache :=
    match m.parsed with
    | some j => j
    | none => Json.obj [("raw", Json.str m.raw)]
  ({ st with latestJson := some newCache },
   (sendToOthersUntilThrow st.clients sender (fun i => OutEvent.sentRaw i m.raw)).1)

/-- part_002 greeting payload: the cached value with _meta replaced by an
    object holding only a timestamp. -/
def greeting_part002 (j : Json) (now : String) : Json :=
  Json.obj (setKey (objSpread j) "_meta" (Json.obj [("timestamp", Json.str now)]))

/-- The connection handler of part_002, restricted to its registry and
    greeting effects: the new client joins wss.clients, and when the
    truthy cache is present its greeting is the only message sent. -/
def onConnection_part002 (st : ServerState) (c : Client) (now : String) :
    ServerState × List OutEvent :=
  ({ st with clients := st.clients ++ [c] },
   match st.latestJson with
   | some j => if jsTruthy j then [OutEvent.sent c.cid (greeting_part002 j now)] else []
   | none => [])

/-- The connection handler of server.js: the greeting is the cached value
    itself, unmodified. -/
def onConnection_serverjs (st : ServerState) (c : Client) :
    ServerState × List OutEvent :=
  ({ st with clients := st.clients ++ [c] },
   match st.latestJson with
   | some j => if jsTruthy j then [OutEvent.sent c.cid j] else []
   | none => [])

/-- Per-connection liveness state of part_002: the isAlive flag and
    whether ws.terminate has been called. -/
structure LiveConn where
  isAlive : Bool
  terminated : Bool
deriving DecidableEq

/-- State right after the connection handler runs: let isAlive = true. -/
def initLiveConn : LiveConn := { isAlive := true, terminated := false }

/-- The pong handler: isAlive = true. -/
def onPong (c : LiveConn) : LiveConn := { c with isAlive := true }

/-- One tick of the setInterval body: a cleared flag means terminate and
    no probe; otherwise clear the flag and send a ping.  The Bool records
    whether a probe was sent on this tick. -/
def pingTick (c : LiveConn) : LiveConn × Bool :=
  if !c.isAlive then ({ c with terminated := true }, false)
  else ({ c with isAlive := false }, true)

/-- The status body of part_002, parameterized by the ambient readings it
    serializes (uptime and the cache are passed through). -/
def statusResponse_part002 (st : ServerState) (uptime : Json) (timestamp : String) : Json :=
  Json.obj [("status", Json.str "ok"),
            ("connections", Json.num st.clients.length),
            ("uptime", uptime),
            ("timestamp", Json.str timestamp),
            ("latestJson", st.latestJson.getD Json.null)]

/-- The health body of part_002. -/
def healthResponse_part002 (memoryUsage uptime : Json) : Json :=
  Json.obj [("status", Json.str "ok"),
            ("memoryUsage", memoryUsage),
            ("uptime", uptime)]

/-- The allow-list of server.js. -/
def allowedOrigins_serverjs : List String :=
  ["http://localhost:3000",
   "https://excel-sheet-analyser-1.onrender.com",
   "https://sakethvetcha-analyser-python-json-convertor-u1j0sm.streamlit.app/"]

/-- The status endpoint of server.js: a request whose Origin header is
    absent or outside the allow-list gets a 403 error object; otherwise
    the same five-field body as part_002.  Returns the HTTP status code
    with the body. -/
def statusResponse_serverjs (origin : Option String) (st : ServerState)
    (uptime : Json) (timestamp : String) : Nat × Json :=
  match origin with
  | some o =>
    if allowedOrigins_serverjs.contains o then
      (200, statusResponse_part002 st uptime timestamp)
    else (403, Json.obj [("error", Json.str "Origin not allowed")])
  | none => (403, Json.obj [("error", Json.str "Origin not allowed")])

/-- The health endpoint of server.js: res.status(200).end() sends no
    JSON body at all. -/
def healthBody_serverjs : Option Json := none

theorem getKey_map_override (fs : List (String × Json)) (k : String) (v : Json)
    (h : fs.any (fun p => p.1 == k) = true) :
    getKey (fs.map (fun p => if p.1 == k then (k, v) else p)) k = some v := by
  induction fs with
  | nil => simp at h
  | cons p rest ih =>
    by_cases hp : (p.1 == k) = true
    · simp only [List.map_cons, if_pos hp]
      simp [getKey, List.find?]
    · have h2 : rest.any (fun p => p.1 == k) = true := by
        simp only [List.any_cons, Bool.or_eq_true] at h
        exact h.resolve_left hp
      have hm := ih h2
      simp only [List.map_cons, if_neg hp]
      unfold getKey at hm ⊢
      simpa [List.find?, hp] using hm

theorem getKey_append_new (fs : List (String × Json)) (k : String) (v : Json)
    (h : fs.any (fun p => p.1 == k) = false) :
    getKey (fs ++ [(k, v)]) k = some v := by
  unfold getKey
  rw [List.find?_append]
  have h1 : fs.find? (fun p => p.1 == k) = none := by
    rw [List.find?_eq_none]
    intro x hx
    have := List.any_eq_false.mp h x hx
    simpa using this
  rw [h1]
  simp [List.find?]

theorem getKey_setKey_self (fs : List (String × Json)) (k : String) (v : Json) :
    getKey (setKey fs k v) k = some v := by
  unfold setKey
  split
  · exact getKey_map_override fs k v (by assumption)
  · rename_i hany
    exact getKey_append_new fs k v ((Bool.not_eq_true _) ▸ hany)

theorem getKey_setKey_ne (fs : List (String × Json)) (k k2 : String) (v : Json)
    (h : k2 ≠ k) :
    getKey (setKey fs k v) k2 = getKey fs k2 := by
  have hk : (k == k2) = false := by
    simp only [beq_eq_false_iff_ne, ne_eq]
    exact fun he => h he.symm
  unfold setKey
  split
  · rename_i hany
    clear hany
    induction fs with
    | nil => simp
    | cons p rest ih =>
      simp only [List.map_cons]
      by_cases hp : (p.1 == k) = true
      · have hpk : p.1 = k := eq_of_beq hp
        simp only [if_pos hp]
        unfold getKey at ih ⊢
        simpa [List.find?, hk, hpk] using ih
      · simp only [if_neg hp]
        by_cases ht : (p.1 == k2) = true
        · simp [getKey, List.find?, ht]
        · unfold getKey at ih ⊢
          simpa [List.find?, ht] using ih
  · unfold getKey
    rw [List.find?_append]
    cases hf : fs.find? (fun p => p.1 == k2) with
    | some q => simp
    | none => simp [List.find?, hk]

/-- C10: when a valid incoming object already carries an object _meta
    field, the part_002 cache update keeps every top-level field other
    than _meta unchanged, keeps every existing _meta subfield other than
    receivedAt, and sets receivedAt to the receipt timestamp. -/
theorem C10_meta_merge (fs mfs : List (String × Json)) (now : String)
    (hmeta : getKey fs "_meta" = some (Json.obj mfs)) :
    (∀ k, k ≠ "_meta" →
        jsGet (storeMerged_part002 (Json.obj fs) now) k = getKey fs k)
  ∧ jsGet (storeMerged_part002 (Json.obj fs) now) "_meta"
      = some (Json.obj (setKey mfs "receivedAt" (Json.str now)))
  ∧ (∀ k, k ≠ "receivedAt" →
        getKey (setKey mfs "receivedAt" (Json.str now)) k = getKey mfs k)
  ∧ getKey (setKey mfs "receivedAt" (Json.str now)) "receivedAt"
      = some (Json.str now) := by
  have hspread : spreadOpt (jsGetMeta (Json.obj fs)) = mfs := by
    simp [jsGetMeta, hmeta, spreadOpt, objSpread]
  refine ⟨?_, ?_, ?_, ?_⟩
  · intro k hkne
    simp only [storeMerged_part002, jsGet, objSpread]
    exact getKey_setKey_ne fs "_meta" k _ hkne
  · simp only [storeMerged_part002, jsGet, objSpread, hspread]
    exact getKey_setKey_self fs "_meta" _
  · intro k hkne
    exact getKey_setKey_ne mfs "receivedAt" k _ hkne
  · exact getKey_setKey_self mfs "receivedAt" _

theorem C10_meta_merge_witness :
    jsGet (storeMerged_part002
        (Json.obj [("a", Json.num 1), ("_meta", Json.obj [("b", Json.num 2)])]) "T") "a"
      = some (Json.num 1)
  ∧ jsGet (storeMerged_part002
        (Json.obj [("a", Json.num 1), ("_meta", Json.obj [("b", Json.num 2)])]) "T") "_meta"
      = some (Json.obj (setKey [("b", Json.num 2)] "receivedAt" (Json.str "T")))
  ∧ getKey (setKey [("b", Json.num 2)] "receivedAt" (Json.str "T")) "b"
      = some (Json.num 2)
  ∧ getKey (setKey [("b", Json.num 2)] "receivedAt" (Json.str "T")) "receivedAt"
      = some (Json.str "T") := by
  have h := C10_meta_merge [("a", Json.num 1), ("_meta", Json.obj [("b", Json.num 2)])]
      [("b", Json.num 2)] "T" rfl
  exact ⟨(h.1 "a" (by decide)).trans rfl, h.2.1,
    h.2.2.1 "b" (by decide), h.2.2.2⟩

/-- C7: the liveness monitor of part_002 ticks every PING_INTERVAL
    milliseconds; a tick finding the flag cleared terminates the
    connection and sends no probe, a tick finding it set clears it and
    sends a probe, a pong sets it, and a connection that never answers a
    probe is terminated by the second tick after connecting. -/
theorem C7_liveness_monitor (c : LiveConn) :
    PING_INTERVAL = 30000
  ∧ (c.isAlive = false → pingTick c = ({ c with terminated := true }, false))
  ∧ (c.isAlive = true → pingTick c = ({ c with isAlive := false }, true))
  ∧ (onPong c).isAlive = true
  ∧ (pingTick initLiveConn).1.terminated = false
  ∧ (pingTick (pingTick initLiveConn).1).1.terminated = true := by
  refine ⟨rfl, ?_, ?_, rfl, rfl, rfl⟩
  · intro h
    simp [pingTick, h]
  · intro h
    simp [pingTick, h]

theorem C7_liveness_monitor_witness :
    pingTick { isAlive := false, terminated := false } = ({ isAlive := false, terminated := true }, false)
  ∧ pingTick { isAlive := true, terminated := false } = ({ isAlive := false, terminated := false }, true) :=
  ⟨(C7_liveness_monitor { isAlive := false, terminated := false }).2.1 rfl,
   (C7_liveness_monitor { isAlive := true, terminated := false }).2.2.1 rfl⟩

/-- C4: a payload longer than MAX_PAYLOAD_SIZE is rejected before any
    parse in part_002 and part_005: the state (cache and registry, hence
    the open sender connection) is untouched, only the sender gets the
    error reply, and the outcome is independent of what the payload would
    parse to. -/
theorem C4_oversize (st : ServerState) (sender : Client) (m : Msg) (now : String)
    (h : msgLen m > MAX_PAYLOAD_SIZE) :
    ((onMessage_part002 st sender m now).1 = st
      ∧ (onMessage_part002 st sender m now).2
          = (if sender.readyState then [OutEvent.errorSent sender.cid] else []))
  ∧ (∀ p, onMessage_part002 st sender { raw := m.raw, parsed := p } now
        = onMessage_part002 st sender m now)
  ∧ ((onMessage_part005 st sender m now).1 = st
      ∧ (onMessage_part005 st sender m now).2 = [OutEvent.errorSent sender.cid])
  ∧ (∀ p, onMessage_part005 st sender { raw := m.raw, parsed := p } now
        = onMessage_part005 st sender m now) := by
  have h2 : MAX_PAYLOAD_SIZE < m.raw.length := h
  have h5 : (100000 : Nat) < m.raw.length := by
    have := h2
    unfold MAX_PAYLOAD_SIZE at this
    omega
  refine ⟨⟨?_, ?_⟩, ?_, ⟨?_, ?_⟩, ?_⟩
  · simp [onMessage_part002, errorReply_part002, msgLen, h2]
  · simp [onMessage_part002, errorReply_part002, msgLen, h2]
  · intro p
    simp [onMessage_part002, errorReply_part002, msgLen, h2]
  · simp [onMessage_part005, msgLen, h5]
  · simp [onMessage_part005, msgLen, h5]
  · intro p
    simp [onMessage_part005, msgLen, h5]

theorem C4_oversize_witness :
    msgLen { raw := String.mk (List.replicate 102401 'a'), parsed := none } > MAX_PAYLOAD_SIZE
  ∧ (onMessage_part002 { latestJson := none, clients := [⟨1, true, true⟩] } ⟨1, true, true⟩
        { raw := String.mk (List.replicate 102401 'a'), parsed := none } "T").1
      = { latestJson := none, clients := [⟨1, true, true⟩] } := by
  have hlen : msgLen { raw := String.mk (List.replicate 102401 'a'), parsed := none }
      > MAX_PAYLOAD_SIZE := by
    show (List.replicate 102401 'a').length > 100 * 1024
    rw [List.length_replicate]
    norm_num
  exact ⟨hlen,
    ((C4_oversize { latestJson := none, clients := [⟨1, true, true⟩] } ⟨1, true, true⟩
        { raw := String.mk (List.replicate 102401 'a'), parsed := none } "T" hlen).1).1⟩

/-- Padding used to build a valid object payload of length exactly
    100 * 1024. -/
def padC9 : String := String.mk (List.replicate 102392 'a')

/-- A well-formed JSON object message whose text length is exactly
    100 * 1024 units, together with its parse result. -/
def mC9 : Msg :=
  { raw := "\x7b\"x\":\"" ++ padC9 ++ "\"\x7d",
    parsed := some (Json.obj [("x", Json.str padC9)]) }

/-- C9 counterexample: part_005 bounds messages by 100000, not 100 * 1024,
    so a valid object payload of length exactly 100 * 1024 is rejected as
    oversize there instead of being accepted and processed normally. -/
theorem C9_counterexample :
    msgLen mC9 = 100 * 1024
  ∧ validStructure (Json.obj [("x", Json.str padC9)]) = true
  ∧ onMessage_part005
        { latestJson := none, clients := [⟨1, true, true⟩, ⟨2, true, true⟩] }
        ⟨1, true, true⟩ mC9 "T"
      = ({ latestJson := none, clients := [⟨1, true, true⟩, ⟨2, true, true⟩] },
         [OutEvent.errorSent 1]) := by
  have hpad : padC9.length = 102392 := by
    show (List.replicate 102392 'a').length = 102392
    exact List.length_replicate 102392 'a'
  have h6 : ("\x7b\"x\":\"" : String).length = 6 := by decide
  have h2 : ("\"\x7d" : String).length = 2 := by decide
  have hlen : msgLen mC9 = 100 * 1024 := by
    show (("\x7b\"x\":\"" ++ padC9) ++ "\"\x7d").length = 100 * 1024
    rw [String.length_append, String.length_append, hpad, h6, h2]
  refine ⟨hlen, rfl, ?_⟩
  have hgt : (100000 : Nat) < msgLen mC9 := by
    rw [hlen]
    norm_num
  simp [onMessage_part005]
  intro hle
  exact False.elim (not_lt.mpr hle hgt)

/-- C9 amended: each size check is a strict comparison, but the limits
    differ between revisions: part_002 rejects as oversize exactly the
    messages longer than 100 * 1024, while part_005 rejects exactly those
    longer than 100000; a valid object payload at or below the limit is
    processed normally by the respective revision. -/
theorem C9_strict_limits (st : ServerState) (sender : Client) (now raw : String) (j : Json)
    (hstruct : validStructure j = true) :
    (raw.length ≤ 100 * 1024 →
       (onMessage_part002 st sender { raw := raw, parsed := some j } now).1.latestJson
         = some (storeMerged_part002 j now))
  ∧ (raw.length > 100 * 1024 →
       onMessage_part002 st sender { raw := raw, parsed := some j } now
         = errorReply_part002 st sender)
  ∧ (raw.length ≤ 100000 →
       (onMessage_part005 st sender { raw := raw, parsed := some j } now).1.latestJson
         = some (storeMerged_part005 j now))
  ∧ (raw.length > 100000 →
       onMessage_part005 st sender { raw := raw, parsed := some j } now
         = (st, [OutEvent.errorSent sender.cid])) := by
  refine ⟨?_, ?_, ?_, ?_⟩ <;> intro h
  · have hn : ¬ (MAX_PAYLOAD_SIZE < raw.length) := by
      unfold MAX_PAYLOAD_SIZE
      omega
    simp [onMessage_part002, msgLen, hn, hstruct]
  · have hy : MAX_PAYLOAD_SIZE < raw.length := h
    simp [onMessage_part002, msgLen, hy]
  · have hn : ¬ ((100000 : Nat) < raw.length) := by omega
    simp [onMessage_part005, msgLen, hn, hstruct]
  · have hy : (100000 : Nat) < raw.length := h
    simp [onMessage_part005, msgLen, hy]

theorem C9_strict_limits_witness :
    (onMessage_part002 { latestJson := none, clients := [⟨1, true, true⟩] } ⟨1, true, true⟩
        { raw := "\x7b\x7d", parsed := some (Json.obj []) } "T").1.latestJson
      = some (storeMerged_part002 (Json.obj []) "T")
  ∧ (onMessage_part005 { latestJson := none, clients := [⟨1, true, true⟩] } ⟨1, true, true⟩
        { raw := "\x7b\x7d", parsed := some (Json.obj []) } "T").1.latestJson
      = some (storeMerged_part005 (Json.obj []) "T") := by
  have h := C9_strict_limits { latestJson := none, clients := [⟨1, true, true⟩] }
      ⟨1, true, true⟩ "T" "\x7b\x7d" (Json.obj []) rfl
  exact ⟨h.1 (by decide), h.2.2.1 (by decide)⟩

theorem errorSent_not_in_broadcast_part002 (clients : List Client) (v : Json) (i : Nat) :
    OutEvent.errorSent i ∉ (broadcast_part002 clients v).2 := by
  simp only [broadcast_part002, List.mem_filterMap]
  rintro ⟨c, hc, h⟩
  by_cases hr : c.readyState = true
  · by_cases hs : c.canSend = true <;> simp [hr, hs] at h
  · rw [Bool.not_eq_true] at hr
    simp [hr] at h

/-- C3 counterexample: a payload parsing to the array value 1, 2 passes
    the typeof guard of part_002, so it is cached (spread into an object
    with index keys plus _meta) and broadcast, with no error reply —
    contradicting the claim that arrays are rejected. -/
theorem C3_counterexample :
    (onMessage_part002
        { latestJson := some (Json.obj [("old", Json.num 0)]),
          clients := [⟨1, true, true⟩, ⟨2, true, true⟩] }
        ⟨1, true, true⟩
        { raw := "[1,2]", parsed := some (Json.arr [Json.num 1, Json.num 2]) }
        "T").1.latestJson
      = some (Json.obj [("0", Json.num 1), ("1", Json.num 2),
                        ("_meta", Json.obj [("receivedAt", Json.str "T")])])
  ∧ (onMessage_part002
        { latestJson := some (Json.obj [("old", Json.num 0)]),
          clients := [⟨1, true, true⟩, ⟨2, true, true⟩] }
        ⟨1, true, true⟩
        { raw := "[1,2]", parsed := some (Json.arr [Json.num 1, Json.num 2]) }
        "T").2
      = [OutEvent.sent 1 (Json.obj [("0", Json.num 1), ("1", Json.num 2),
                          ("_meta", Json.obj [("receivedAt", Json.str "T")])]),
         OutEvent.sent 2 (Json.obj [("0", Json.num 1), ("1", Json.num 2),
                          ("_meta", Json.obj [("receivedAt", Json.str "T")])])] := by
  constructor <;> rfl

/-- C3 amended: within the size limit, part_002 sends the error reply to
    the open sender exactly when parsing fails or the parsed value fails
    the JS guard typeof not object or null; scalars and null fail that
    guard, but arrays pass it and are accepted. -/
theorem C3_reject_guard (st : ServerState) (sender : Client) (m : Msg) (now : String)
    (hsize : msgLen m ≤ MAX_PAYLOAD_SIZE) (hopen : sender.readyState = true) :
    ((OutEvent.errorSent sender.cid ∈ (onMessage_part002 st sender m now).2)
       ↔ m.parsed.elim True (fun j => validStructure j = false))
  ∧ validStructure (Json.arr [Json.num 1, Json.num 2]) = true
  ∧ validStructure Json.null = false
  ∧ validStructure (Json.num 5) = false
  ∧ validStructure (Json.str "s") = false
  ∧ validStructure (Json.bool true) = false := by
  have hn : ¬ (MAX_PAYLOAD_SIZE < m.raw.length) := not_lt.mpr hsize
  refine ⟨?_, rfl, rfl, rfl, rfl, rfl⟩
  cases hp : m.parsed with
  | none =>
    simp [onMessage_part002, msgLen, hn, hp, errorReply_part002, hopen]
  | some j =>
    by_cases hv : validStructure j = true
    · simp [onMessage_part002, msgLen, hn, hp, hv, errorSent_not_in_broadcast_part002]
    · have hv2 : validStructure j = false := by
        rw [← Bool.not_eq_true]
        exact hv
      simp [onMessage_part002, msgLen, hn, hp, hv2, errorReply_part002, hopen]

theorem C3_reject_guard_witness :
    msgLen { raw := "5", parsed := some (Json.num 5) } ≤ MAX_PAYLOAD_SIZE
  ∧ OutEvent.errorSent 1 ∈
      (onMessage_part002 { latestJson := none, clients := [⟨1, true, true⟩] }
        ⟨1, true, true⟩ { raw := "5", parsed := some (Json.num 5) } "T").2 := by
  have h := C3_reject_guard { latestJson := none, clients := [⟨1, true, true⟩] }
      ⟨1, true, true⟩ { raw := "5", parsed := some (Json.num 5) } "T" (by decide) rfl
  exact ⟨by decide, h.1.mpr (by simp [validStructure, jsTypeofIsObject])⟩

theorem sendToOthersUntilThrow_all_ok (clients : List Client) (sender : Client)
    (mk : Nat → OutEvent) (h : ∀ c ∈ clients, c.canSend = true) :
    sendToOthersUntilThrow clients sender mk
      = (clients.filterMap (fun c =>
          if c.cid != sender.cid && c.readyState then some (mk c.cid) else none), false) := by
  induction clients with
  | nil => simp [sendToOthersUntilThrow]
  | cons c rest ih =>
    have hc : c.canSend = true := h c (by simp)
    have hrest : ∀ x ∈ rest, x.canSend = true := fun x hx => h x (by simp [hx])
    by_cases hg : (c.cid != sender.cid && c.readyState) = true
    · have hg2 : ¬c.cid = sender.cid ∧ c.readyState = true := by simpa using hg
      simp [sendToOthersUntilThrow, hg, hc, ih hrest, List.filterMap_cons, hg2.1, hg2.2]
    · have hg2 : ¬(¬c.cid = sender.cid ∧ c.readyState = true) := by simpa using hg
      simp [sendToOthersUntilThrow, hg, ih hrest, List.filterMap_cons, hg2]

/-- C1 counterexample: server.js stores the parsed object with no receipt
    metadata at all: after a valid object message the cache is exactly the
    parsed object, which has no _meta field, contradicting the claimed
    receivedAt merge. -/
theorem C1_counterexample :
    (onMessage_serverjs
        { latestJson := none, clients := [⟨1, true, true⟩, ⟨2, true, true⟩] }
        ⟨1, true, true⟩
        { raw := "\x7b\"x\":1\x7d", parsed := some (Json.obj [("x", Json.num 1)]) }).1.latestJson
      = some (Json.obj [("x", Json.num 1)])
  ∧ jsGetMeta (Json.obj [("x", Json.num 1)]) = none := ⟨rfl, rfl⟩

/-- C1 amended: for a valid object payload within the size limits,
    part_002 caches the value with receivedAt merged under _meta and sends
    it to every OPEN client whose send succeeds, the sender included;
    part_005 caches the value with a fresh receivedAt _meta and sends it
    to every other OPEN client whose send succeeds; server.js caches the
    parsed object unchanged and, when no send throws, sends exactly it to
    every other OPEN client. -/
theorem C1_store_and_broadcast (st : ServerState) (sender : Client) (m : Msg) (now : String)
    (j : Json) (hsize : msgLen m ≤ 100000) (hp : m.parsed = some j)
    (hstruct : validStructure j = true) :
    ((onMessage_part002 st sender m now).1.latestJson = some (storeMerged_part002 j now)
      ∧ ∀ c ∈ st.clients, c.readyState = true → c.canSend = true →
          OutEvent.sent c.cid (storeMerged_part002 j now)
            ∈ (onMessage_part002 st sender m now).2)
  ∧ ((onMessage_part005 st sender m now).1.latestJson = some (storeMerged_part005 j now)
      ∧ ∀ c ∈ st.clients, c.cid ≠ sender.cid → c.readyState = true → c.canSend = true →
          OutEvent.sent c.cid (storeMerged_part005 j now)
            ∈ (onMessage_part005 st sender m now).2)
  ∧ ((onMessage_serverjs st sender m).1.latestJson = some j
      ∧ ((∀ c ∈ st.clients, c.canSend = true) →
          ∀ c ∈ st.clients, c.cid ≠ sender.cid → c.readyState = true →
            OutEvent.sent c.cid j ∈ (onMessage_serverjs st sender m).2)) := by
  have hn2 : ¬ (MAX_PAYLOAD_SIZE < m.raw.length) := by
    unfold MAX_PAYLOAD_SIZE
    have : m.raw.length ≤ 100000 := hsize
    omega
  have hn5 : ¬ ((100000 : Nat) < m.raw.length) := not_lt.mpr hsize
  refine ⟨⟨?_, ?_⟩, ⟨?_, ?_⟩, ⟨?_, ?_⟩⟩
  · simp [onMessage_part002, msgLen, hn2, hp, hstruct]
  · intro c hc hr hs
    have hev : (onMessage_part002 st sender m now).2
        = (broadcast_part002 st.clients (storeMerged_part002 j now)).2 := by
      simp [onMessage_part002, msgLen, hn2, hp, hstruct]
    rw [hev]
    exact List.mem_filterMap.2 ⟨c, hc, by simp [hr, hs]⟩
  · simp [onMessage_part005, msgLen, hn5, hp, hstruct]
  · intro c hc hne hr hs
    have hev : (onMessage_part005 st sender m now).2
        = broadcast_part005 st.clients sender (storeMerged_part005 j now) := by
      simp [onMessage_part005, msgLen, hn5, hp, hstruct]
    rw [hev]
    exact List.mem_filterMap.2 ⟨c, hc, by simp [hr, hs, hne]⟩
  · simp [onMessage_serverjs, hp, hstruct]
  · intro hok c hc hne hr
    have hev : (onMessage_serverjs st sender m).2
        = st.clients.filterMap (fun c =>
            if c.cid != sender.cid && c.readyState then some (OutEvent.sent c.cid j) else none) := by
      simp [onMessage_serverjs, hp, hstruct, sendToOthersUntilThrow_all_ok st.clients sender _ hok]
    rw [hev]
    exact List.mem_filterMap.2 ⟨c, hc, by simp [hr, hne]⟩

theorem C1_store_and_broadcast_witness :
    (onMessage_part002 { latestJson := none, clients := [⟨1, true, true⟩, ⟨2, true, true⟩] }
        ⟨1, true, true⟩ { raw := "\x7b\"x\":1\x7d", parsed := some (Json.obj [("x", Json.num 1)]) }
        "T").1.latestJson
      = some (storeMerged_part002 (Json.obj [("x", Json.num 1)]) "T")
  ∧ OutEvent.sent 2 (storeMerged_part005 (Json.obj [("x", Json.num 1)]) "T")
      ∈ (onMessage_part005 { latestJson := none, clients := [⟨1, true, true⟩, ⟨2, true, true⟩] }
          ⟨1, true, true⟩ { raw := "\x7b\"x\":1\x7d", parsed := some (Json.obj [("x", Json.num 1)]) }
          "T").2
  ∧ OutEvent.sent 2 (Json.obj [("x", Json.num 1)])
      ∈ (onMessage_serverjs { latestJson := none, clients := [⟨1, true, true⟩, ⟨2, true, true⟩] }
          ⟨1, true, true⟩
          { raw := "\x7b\"x\":1\x7d", parsed := some (Json.obj [("x", Json.num 1)]) }).2 := by
  have h := C1_store_and_broadcast
      { latestJson := none, clients := [⟨1, true, true⟩, ⟨2, true, true⟩] }
      ⟨1, true, true⟩
      { raw := "\x7b\"x\":1\x7d", parsed := some (Json.obj [("x", Json.num 1)]) }
      "T" (Json.obj [("x", Json.num 1)]) (by decide) rfl rfl
  refine ⟨h.1.1, ?_, ?_⟩
  · exact h.2.1.2 ⟨2, true, true⟩ (by simp) (by decide) rfl rfl
  · exact h.2.2.2 (by intro c hc; fin_cases hc <;> rfl) ⟨2, true, true⟩ (by simp) (by decide) rfl

theorem sendToOthersUntilThrow_events_shape (clients : List Client) (sender : Client)
    (mk : Nat → OutEvent) :
    ∀ ev ∈ (sendToOthersUntilThrow clients sender mk).1, ∃ i, ev = mk i := by
  induction clients with
  | nil => simp [sendToOthersUntilThrow]
  | cons c rest ih =>
    by_cases hg : (c.cid != sender.cid && c.readyState) = true
    · by_cases hs : c.canSend = true
      · intro ev hev
        simp only [sendToOthersUntilThrow, if_pos hg, if_pos hs] at hev
        rcases List.mem_cons.mp hev with hev | hev
        · exact ⟨c.cid, hev⟩
        · exact ih ev hev
      · intro ev hev
        have hs2 : c.canSend = false := by simpa using hs
        simp [sendToOthersUntilThrow, hg, hs2] at hev
    · intro ev hev
      simp only [sendToOthersUntilThrow, if_neg hg] at hev
      exact ih ev hev

/-- C2 counterexample: in part_001 the unparsable text not json replaces
    the previously cached object with a wrapper object and is still
    relayed raw to the other open connection, and the sender gets no error
    reply — the cache does not keep its prior value and a broadcast does
    occur. -/
theorem C2_counterexample :
    (onMessage_part001
        { latestJson := some (Json.obj [("old", Json.num 1)]),
          clients := [⟨1, true, true⟩, ⟨2, true, true⟩] }
        ⟨1, true, true⟩ { raw := "not json", parsed := none }).1.latestJson
      = some (Json.obj [("raw", Json.str "not json")])
  ∧ (onMessage_part001
        { latestJson := some (Json.obj [("old", Json.num 1)]),
          clients := [⟨1, true, true⟩, ⟨2, true, true⟩] }
        ⟨1, true, true⟩ { raw := "not json", parsed := none }).2
      = [OutEvent.sentRaw 2 "not json"] := ⟨rfl, rfl⟩

/-- C2 amended: in part_002 a malformed, non-object or oversize message
    leaves the whole state unchanged and only the sender (when still OPEN)
    receives the error reply; in part_001 any message overwrites the cache
    — a parse failure stores an object wrapping the raw text, a parsed
    value is stored as-is — the raw text is relayed to every other OPEN
    client when no send throws, and no error reply is ever produced. -/
theorem C2_error_atomicity (st : ServerState) (sender : Client) (m : Msg) (now : String)
    (hbad : m.parsed = none
      ∨ (∃ j, m.parsed = some j ∧ validStructure j = false)
      ∨ msgLen m > MAX_PAYLOAD_SIZE) :
    onMessage_part002 st sender m now
      = (st, if sender.readyState then [OutEvent.errorSent sender.cid] else [])
  ∧ (onMessage_part001 st sender m).1.latestJson
      = some (m.parsed.elim (Json.obj [("raw", Json.str m.raw)]) id)
  ∧ ((∀ c ∈ st.clients, c.canSend = true) →
      ∀ c ∈ st.clients, c.cid ≠ sender.cid → c.readyState = true →
        OutEvent.sentRaw c.cid m.raw ∈ (onMessage_part001 st sender m).2)
  ∧ (∀ ev ∈ (onMessage_part001 st sender m).2, ev ≠ OutEvent.errorSent sender.cid) := by
  refine ⟨?_, ?_, ?_, ?_⟩
  · rcases hbad with hb | ⟨j, hj, hv⟩ | hb
    · by_cases hs : MAX_PAYLOAD_SIZE < m.raw.length
      · simp [onMessage_part002, errorReply_part002, msgLen, hs]
      · simp [onMessage_part002, errorReply_part002, msgLen, hs, hb]
    · by_cases hs : MAX_PAYLOAD_SIZE < m.raw.length
      · simp [onMessage_part002, errorReply_part002, msgLen, hs]
      · simp [onMessage_part002, errorReply_part002, msgLen, hs, hj, hv]
    · simp [onMessage_part002, errorReply_part002, msgLen, show MAX_PAYLOAD_SIZE < m.raw.length from hb]
  · cases hp : m.parsed <;> simp [onMessage_part001, hp]
  · intro hok c hc hne hr
    have hev : (onMessage_part001 st sender m).2
        = st.clients.filterMap (fun c =>
            if c.cid != sender.cid && c.readyState then some (OutEvent.sentRaw c.cid m.raw) else none) := by
      simp [onMessage_part001, sendToOthersUntilThrow_all_ok st.clients sender _ hok]
    rw [hev]
    exact List.mem_filterMap.2 ⟨c, hc, by simp [hr, hne]⟩
  · intro ev hev
    obtain ⟨i, hi⟩ := sendToOthersUntilThrow_events_shape st.clients sender
      (fun i => OutEvent.sentRaw i m.raw) ev (by simpa [onMessage_part001] using hev)
    rw [hi]
    intro hcon
    cases hcon

theorem C2_error_atomicity_witness :
    onMessage_part002
        { latestJson := some (Json.obj [("old", Json.num 1)]), clients := [⟨1, true, true⟩] }
        ⟨1, true, true⟩ { raw := "not json", parsed := none } "T"
      = ({ latestJson := some (Json.obj [("old", Json.num 1)]), clients := [⟨1, true, true⟩] },
         [OutEvent.errorSent 1]) := by
  have h := C2_error_atomicity
      { latestJson := some (Json.obj [("old", Json.num 1)]), clients := [⟨1, true, true⟩] }
      ⟨1, true, true⟩ { raw := "not json", parsed := none } "T" (Or.inl rfl)
  exact h.1

/-- C5 counterexample: in part_005 a client whose send throws is only
    logged: after the broadcast it is still OPEN in the registry, no
    terminated event exists, and the later client still got its send —
    contradicting the claim that the failing connection is forcibly
    closed. -/
theorem C5_counterexample :
    (onMessage_part005
        { latestJson := none,
          clients := [⟨1, true, true⟩, ⟨2, true, false⟩, ⟨3, true, true⟩] }
        ⟨1, true, true⟩
        { raw := "\x7b\"x\":1\x7d", parsed := some (Json.obj [("x", Json.num 1)]) }
        "T").1.clients
      = [⟨1, true, true⟩, ⟨2, true, false⟩, ⟨3, true, true⟩]
  ∧ (onMessage_part005
        { latestJson := none,
          clients := [⟨1, true, true⟩, ⟨2, true, false⟩, ⟨3, true, true⟩] }
        ⟨1, true, true⟩
        { raw := "\x7b\"x\":1\x7d", parsed := some (Json.obj [("x", Json.num 1)]) }
        "T").2
      = [OutEvent.sent 3 (storeMerged_part005 (Json.obj [("x", Json.num 1)]) "T")] :=
  ⟨rfl, rfl⟩

/-- C5 amended: in both revisions a send failure on one connection does
    not prevent the attempt on any other connection; in part_002 the
    failing OPEN connection is terminated (event emitted and registry
    entry closed), while in part_005 the failure is only logged and every
    registry entry is left exactly as it was. -/
theorem C5_broadcast_isolation (clients : List Client) (v : Json) (sender : Client)
    (c : Client) (hc : c ∈ clients) :
    (c.readyState = true → c.canSend = true →
        OutEvent.sent c.cid v ∈ (broadcast_part002 clients v).2)
  ∧ (c.readyState = true → c.canSend = false →
        OutEvent.terminated c.cid ∈ (broadcast_part002 clients v).2)
  ∧ (c.readyState = true → c.canSend = false →
        { c with readyState := false } ∈ (broadcast_part002 clients v).1)
  ∧ (c.cid ≠ sender.cid → c.readyState = true → c.canSend = true →
        OutEvent.sent c.cid v ∈ broadcast_part005 clients sender v)
  ∧ (∀ ev ∈ broadcast_part005 clients sender v, ∀ i, ev ≠ OutEvent.terminated i) := by
  refine ⟨?_, ?_, ?_, ?_, ?_⟩
  · intro hr hs
    exact List.mem_filterMap.2 ⟨c, hc, by simp [hr, hs]⟩
  · intro hr hs
    exact List.mem_filterMap.2 ⟨c, hc, by simp [hr, hs]⟩
  · intro hr hs
    have : { c with readyState := false }
        = (fun c => if c.readyState && !c.canSend then { c with readyState := false } else c) c := by
      simp [hr, hs]
    rw [broadcast_part002]
    exact this ▸ List.mem_map_of_mem _ hc
  · intro hne hr hs
    exact List.mem_filterMap.2 ⟨c, hc, by simp [hr, hs, hne]⟩
  · intro ev hev i
    simp only [broadcast_part005, List.mem_filterMap] at hev
    obtain ⟨x, _, hx⟩ := hev
    by_cases hg : (x.cid != sender.cid && x.readyState && x.canSend) = true
    · rw [if_pos hg] at hx
      have hx2 : OutEvent.sent x.cid v = ev := Option.some.inj hx
      rw [← hx2]
      intro hcon
      cases hcon
    · rw [if_neg hg] at hx
      cases hx

theorem C5_broadcast_isolation_witness :
    OutEvent.sent 3 (Json.num 9)
      ∈ (broadcast_part002 [⟨2, true, false⟩, ⟨3, true, true⟩] (Json.num 9)).2
  ∧ OutEvent.terminated 2
      ∈ (broadcast_part002 [⟨2, true, false⟩, ⟨3, true, true⟩] (Json.num 9)).2
  ∧ (⟨2, false, false⟩ : Client)
      ∈ (broadcast_part002 [⟨2, true, false⟩, ⟨3, true, true⟩] (Json.num 9)).1
  ∧ OutEvent.sent 3 (Json.num 9)
      ∈ broadcast_part005 [⟨2, true, false⟩, ⟨3, true, true⟩] ⟨1, true, true⟩ (Json.num 9) := by
  have h3 := C5_broadcast_isolation [⟨2, true, false⟩, ⟨3, true, true⟩] (Json.num 9)
      ⟨1, true, true⟩ ⟨3, true, true⟩ (by simp)
  have h2 := C5_broadcast_isolation [⟨2, true, false⟩, ⟨3, true, true⟩] (Json.num 9)
      ⟨1, true, true⟩ ⟨2, true, false⟩ (by simp)
  exact ⟨h3.1 rfl rfl, h2.2.1 rfl rfl, h2.2.2.1 rfl rfl, h3.2.2.2.1 (by decide) rfl rfl⟩

/-- C6 counterexample: with a cached value carrying receivedAt metadata,
    the part_002 greeting to a new connection is not the cached value
    unmodified: its _meta is replaced by an object holding only a fresh
    timestamp, so the receivedAt subfield is gone. -/
theorem C6_counterexample :
    (onConnection_part002
        { latestJson := some (Json.obj [("x", Json.num 1),
            ("_meta", Json.obj [("receivedAt", Json.str "T1")])]),
          clients := [] }
        ⟨7, true, true⟩ "T2").2
      = [OutEvent.sent 7 (Json.obj [("x", Json.num 1),
          ("_meta", Json.obj [("timestamp", Json.str "T2")])])]
  ∧ Json.obj [("x", Json.num 1), ("_meta", Json.obj [("timestamp", Json.str "T2")])]
      ≠ Json.obj [("x", Json.num 1), ("_meta", Json.obj [("receivedAt", Json.str "T1")])] := by
  refine ⟨rfl, ?_⟩
  intro h
  have h2 := congrArg (fun x => jsGet x "_meta") h
  simp [jsGet, getKey, List.find?] at h2

/-- C6 amended: whenever a new connection is accepted while the cache
    holds a truthy value, the connection handler sends that connection
    exactly one message before anything else: in server.js the cached
    value unmodified, in part_002 the cached value with _meta replaced by
    an object holding only a timestamp; with an empty cache nothing is
    sent; in both the new client is appended to the registry. -/
theorem C6_greeting (st : ServerState) (c : Client) (now : String) (j : Json)
    (hcache : st.latestJson = some j) (htruthy : jsTruthy j = true) :
    (onConnection_part002 st c now).2 = [OutEvent.sent c.cid (greeting_part002 j now)]
  ∧ (onConnection_serverjs st c).2 = [OutEvent.sent c.cid j]
  ∧ (onConnection_part002 st c now).1.clients = st.clients ++ [c]
  ∧ (onConnection_serverjs st c).1.clients = st.clients ++ [c]
  ∧ (∀ st2 : ServerState, st2.latestJson = none →
        (onConnection_part002 st2 c now).2 = [] ∧ (onConnection_serverjs st2 c).2 = []) := by
  refine ⟨?_, ?_, rfl, rfl, ?_⟩
  · simp [onConnection_part002, hcache, htruthy]
  · simp [onConnection_serverjs, hcache, htruthy]
  · intro st2 h2
    exact ⟨by simp [onConnection_part002, h2], by simp [onConnection_serverjs, h2]⟩

theorem C6_greeting_witness :
    (onConnection_part002
        { latestJson := some (Json.obj [("x", Json.num 1)]), clients := [] }
        ⟨7, true, true⟩ "T2").2
      = [OutEvent.sent 7 (greeting_part002 (Json.obj [("x", Json.num 1)]) "T2")]
  ∧ (onConnection_serverjs
        { latestJson := some (Json.obj [("x", Json.num 1)]), clients := [] }
        ⟨7, true, true⟩).2
      = [OutEvent.sent 7 (Json.obj [("x", Json.num 1)])] := by
  have h := C6_greeting
      { latestJson := some (Json.obj [("x", Json.num 1)]), clients := [] }
      ⟨7, true, true⟩ "T2" (Json.obj [("x", Json.num 1)]) rfl rfl
  exact ⟨h.1, h.2.1⟩

/-- C8 counterexample: the server.js health endpoint sends an empty body,
    not an object with status, memoryUsage and uptime; and its status
    endpoint answers a request without an allowed Origin header with a 403
    error object instead of the five-field body. -/
theorem C8_counterexample :
    healthBody_serverjs = none
  ∧ statusResponse_serverjs none
        { latestJson := none, clients := [⟨1, true, true⟩, ⟨2, true, true⟩] }
        (Json.num 5) "T"
      = (403, Json.obj [("error", Json.str "Origin not allowed")]) := ⟨rfl, rfl⟩

/-- C8 amended: in part_002 the status body has exactly the fields status,
    connections, uptime, timestamp, latestJson, with connections the
    registry size and latestJson the cache value or null, and the health
    body has exactly status, memoryUsage, uptime; in server.js the same
    status body is served only to requests whose Origin is in the
    allow-list (others get a 403 error object) and the health endpoint
    returns an empty body. -/
theorem C8_status_and_health (st : ServerState) (uptime memoryUsage : Json)
    (timestamp : String) (origin : String)
    (horigin : origin ∈ allowedOrigins_serverjs) :
    objKeys (statusResponse_part002 st uptime timestamp)
      = ["status", "connections", "uptime", "timestamp", "latestJson"]
  ∧ jsGet (statusResponse_part002 st uptime timestamp) "connections"
      = some (Json.num st.clients.length)
  ∧ jsGet (statusResponse_part002 st uptime timestamp) "latestJson"
      = some (st.latestJson.getD Json.null)
  ∧ objKeys (healthResponse_part002 memoryUsage uptime)
      = ["status", "memoryUsage", "uptime"]
  ∧ statusResponse_serverjs (some origin) st uptime timestamp
      = (200, statusResponse_part002 st uptime timestamp)
  ∧ healthBody_serverjs = none := by
  refine ⟨rfl, ?_, ?_, rfl, ?_, rfl⟩
  · simp [jsGet, statusResponse_part002, getKey, List.find?]
  · simp [jsGet, statusResponse_part002, getKey, List.find?]
  · simp [statusResponse_serverjs, horigin]

theorem C8_status_and_health_witness :
    objKeys (statusResponse_part002
        { latestJson := some (Json.obj [("x", Json.num 1)]), clients := [⟨1, true, true⟩] }
        (Json.num 5) "T")
      = ["status", "connections", "uptime", "timestamp", "latestJson"]
  ∧ statusResponse_serverjs (some "http://localhost:3000")
        { latestJson := some (Json.obj [("x", Json.num 1)]), clients := [⟨1, true, true⟩] }
        (Json.num 5) "T"
      = (200, statusResponse_part002
          { latestJson := some (Json.obj [("x", Json.num 1)]), clients := [⟨1, true, true⟩] }
          (Json.num 5) "T") := by
  have h := C8_status_and_health
      { latestJson := some (Json.obj [("x", Json.num 1)]), clients := [⟨1, true, true⟩] }
      (Json.num 5) (Json.num 6) "T" "http://localhost:3000" (by simp [allowedOrigins_serverjs])
  exact ⟨h.1, h.2.2.2.2.1⟩
